import Mathlib

/-!
Shallow embedding of `src/wingrr/src/wingrr.cc` — the wingrr polyglot
script-execution dispatcher.

Modelling conventions, matching the C source:

* C string pointers (`const char *`) are modelled by `Option CStr`, where a
  `CStr` is an address together with the text it points at.  Pointer equality
  (`==` on `const char *` in the source) corresponds to equality of the whole
  `CStr` pair: in any consistent heap two live pointers have the same address
  iff they are the same pointer, hence point at the same contents; two
  pointers with equal contents at different addresses compare unequal, exactly
  as in the C source.  `none` is the null pointer.
* The per-language engine adapters (`wrr::PythonEngine` etc.) and the embedded
  node runtime entry point `node_main` live outside this translation unit;
  they are abstracted as an `Engines` record of arbitrary functions from
  (workdir contents, program contents) — respectively (NODE_PATH contents,
  argv) — to an exit status.
* `uv_os_getenv` into a `char buf[4096]` stack buffer follows the libuv
  semantics: when the variable is set and its length is `< 4096` the value is
  copied into the buffer and the size out-parameter becomes that length; when
  the value does not fit the call fails with `UV_ENOBUFS`, the buffer is left
  untouched and the size out-parameter becomes length + 1; when the variable
  is unset the call fails with `UV_ENOENT` and both the buffer and the size
  out-parameter are left untouched.
* `assert` failures (the fatal contract path, which aborts the process) are
  modelled by `wingrr_exec` returning `none`.
-/

/-- A non-null C string pointer: its address together with the characters it
points at. -/
structure CStr where
  addr : Nat
  content : String
deriving DecidableEq, Repr

/-- The engine-type enumeration `wingrr_engine_type_t` used by `wingrr.cc`
(the closed set of eight supported engines). -/
inductive wingrr_engine_type_t
  | WINGRR_ENGINE_JAVASCRIPT
  | WINGRR_ENGINE_TYPESCRIPT
  | WINGRR_ENGINE_PYTHON
  | WINGRR_ENGINE_RUBY
  | WINGRR_ENGINE_LUA
  | WINGRR_ENGINE_JAVA
  | WINGRR_ENGINE_GO
  | WINGRR_ENGINE_CSHARP
deriving DecidableEq, Repr

/-- The execution context `struct wingrr_context_t_`: a program pointer, a
workdir pointer and the engine type.  (The mutex only serialises access and
has no effect on the sequential semantics modelled here.) -/
structure wingrr_context_t where
  program : Option CStr
  workdir : Option CStr
  type : wingrr_engine_type_t
deriving DecidableEq, Repr

/-- `wingrr_prep`: `new wingrr_context_t_()` value-initialises the struct, so
both pointers start out null; only the engine type is stored. -/
def wingrr_prep (type : wingrr_engine_type_t) : wingrr_context_t :=
  ⟨none, none, type⟩

/-- `wingrr_set_program`: under the lock, if the stored pointer equals the
argument pointer it returns early, otherwise it overwrites the field. -/
def wingrr_set_program (ctx : wingrr_context_t) (program : Option CStr) :
    wingrr_context_t :=
  if ctx.program = program then ctx else ⟨program, ctx.workdir, ctx.type⟩

/-- `wingrr_set_workdir`: symmetric to `wingrr_set_program`. -/
def wingrr_set_workdir (ctx : wingrr_context_t) (workdir : Option CStr) :
    wingrr_context_t :=
  if ctx.workdir = workdir then ctx else ⟨ctx.program, workdir, ctx.type⟩

/-- The process environment state the dispatcher touches: the value of the
`NODE_PATH` module-search-path variable (`none` = unset). -/
structure NodeEnv where
  node_path : Option String
deriving DecidableEq, Repr

/-- The external collaborators of `wingrr.cc`, abstracted: `node_main` as a
function of the `NODE_PATH` value in effect during the call and of the argv
list (without the trailing null), and each adapter engine as a function of
the workdir passed to its constructor and the program passed to `execute`. -/
structure Engines where
  node_main : String → List String → Int
  csharp_execute : String → String → Int
  go_execute : String → String → Int
  java_execute : String → String → Int
  python_execute : String → String → Int
  ruby_execute : String → String → Int
  lua_execute : String → String → Int

/-- Contents of the 4096-byte save buffer after
`uv_os_getenv("NODE_PATH", buf, &buflen)` with `buflen = 4096`.  The buffer is
declared `char buf[buflen];` with no initialiser, so when the read fails
(variable unset, or value of length ≥ 4096 overflowing the buffer) the buffer
keeps its indeterminate stack contents, modelled by the parameter `g`. -/
def readEnvBuf (v : Option String) (g : String) : String :=
  match v with
  | some s => if s.length < 4096 then s else g
  | none => g

/-- The argv vector `wingrr_exec` builds for `node_main` (without the final
`nullptr`, which is not counted in the argc actually passed): the eight fixed
entries, then for TypeScript the `--require ts-node/register/transpile-only`
pair, then the program pointer. -/
def buildArgv (type : wingrr_engine_type_t) (program : String) : List String :=
  ["wingrr",
   "--experimental-modules",
   "--experimental-wasi-unstable-preview1",
   "--no-global-search-paths",
   "--no-experimental-fetch",
   "--no-deprecation",
   "--no-warnings",
   "--no-addons"] ++
  (if type = .WINGRR_ENGINE_TYPESCRIPT then
     ["--require", "ts-node/register/transpile-only"]
   else []) ++
  [program]

/-- Everything observable when `wingrr_exec` returns (rather than aborting):
the returned status, the final `NODE_PATH` state, and the context as left
behind by the call. -/
structure ExecOutcome where
  ret : Int
  env : NodeEnv
  ctx : wingrr_context_t
deriving DecidableEq, Repr

/-- `wingrr_exec`: asserts that `program` and `workdir` are non-null (`none`
result = process abort), then routes on the engine type.  For the
JavaScript/TypeScript branch it saves `NODE_PATH` into the stack buffer
(`readEnvBuf`, with `g` the buffer's indeterminate initial contents), sets
`NODE_PATH` to the workdir, calls `node_main` with the built argv, and then
restores `NODE_PATH` from the save buffer.  For the six adapter engines it
constructs the adapter from the workdir and returns `execute(program)`
verbatim, touching no environment state.  The final `ret = 0` default is the
initialisation `int ret = 0;`, unreachable for the eight enum values. -/
def wingrr_exec (E : Engines) (g : String) (env : NodeEnv)
    (ctx : wingrr_context_t) : Option ExecOutcome :=
  match ctx.program, ctx.workdir with
  | some program, some workdir =>
    if ctx.type = .WINGRR_ENGINE_JAVASCRIPT ∨
       ctx.type = .WINGRR_ENGINE_TYPESCRIPT then
      let buf := readEnvBuf env.node_path g
      let ret := E.node_main workdir.content (buildArgv ctx.type program.content)
      some ⟨ret, ⟨some buf⟩, ctx⟩
    else if ctx.type = .WINGRR_ENGINE_CSHARP then
      some ⟨E.csharp_execute workdir.content program.content, env, ctx⟩
    else if ctx.type = .WINGRR_ENGINE_GO then
      some ⟨E.go_execute workdir.content program.content, env, ctx⟩
    else if ctx.type = .WINGRR_ENGINE_JAVA then
      some ⟨E.java_execute workdir.content program.content, env, ctx⟩
    else if ctx.type = .WINGRR_ENGINE_PYTHON then
      some ⟨E.python_execute workdir.content program.content, env, ctx⟩
    else if ctx.type = .WINGRR_ENGINE_RUBY then
      some ⟨E.ruby_execute workdir.content program.content, env, ctx⟩
    else if ctx.type = .WINGRR_ENGINE_LUA then
      some ⟨E.lua_execute workdir.content program.content, env, ctx⟩
    else
      some ⟨0, env, ctx⟩
  | _, _ => none

/-- The returned status of an execution, when it did not abort. -/
def execRet (o : Option ExecOutcome) : Option Int :=
  o.map ExecOutcome.ret

/-- What `uv_os_getenv("WINGRR_ROOT", ...)` can observe: variable unset
(`UV_ENOENT`), or set to a value (which may or may not fit the buffer). -/
inductive EnvReadResult
  | absent
  | value (v : String)
deriving DecidableEq, Repr

/-- What `uv_cwd` can report when consulted: the current directory written
into the buffer (success), `UV_ENOBUFS` (buffer too small), or any other
failure code (`getcwd` failing with e.g. `EACCES`, or `ENOENT` for a deleted
working directory), which — like `UV_ENOBUFS` — leaves the buffer
untouched. -/
inductive CwdResult
  | ok (v : String)
  | enobufs
  | err
deriving DecidableEq, Repr

/-- `_get_runtime_path`: `char buf[4096]{0}` (zero-initialised, so the buffer
reads back as `""` until written); `uv_os_getenv("WINGRR_ROOT", buf, &buflen)`
updates buffer and length per the libuv semantics in the header comment; then
`if (!buf || buflen == 0 || std::string(buf) == "" && uv_cwd(buf, &buflen) == UV_ENOBUFS)`
returns `"."`, else returns the buffer.  `!buf` is always false for a stack
array and `&&` binds tighter than `||`; `uv_cwd` is only evaluated when the
buffer is still empty and the length is nonzero.  The comparison is against
`UV_ENOBUFS` specifically: a successful `uv_cwd` writes the current directory
into the buffer and the `else` returns it, while a `uv_cwd` failure with any
other code leaves the buffer untouched, the condition is again false, and the
`else` returns the still-empty buffer `""`. -/
def _get_runtime_path (envRead : EnvReadResult) (cwd : CwdResult) : String :=
  let state :=
    match envRead with
    | .absent => (("" : String), 4096)
    | .value v => if v.length < 4096 then (v, v.length) else (("" : String), v.length + 1)
  if state.2 = 0 then "."
  else if state.1 = "" then
    match cwd with
    | .enobufs => "."
    | .ok c => c
    | .err => ""
  else state.1

/-- Engines whose paths all return status 0, used to instantiate theorems at
concrete inputs. -/
def trivEngines : Engines :=
  ⟨fun _ _ => 0, fun _ _ => 0, fun _ _ => 0, fun _ _ => 0,
   fun _ _ => 0, fun _ _ => 0, fun _ _ => 0⟩

/-- A concrete JavaScript context: program `"m.js"`, workdir `"/wd"`. -/
def jsCtx : wingrr_context_t :=
  ⟨some ⟨0, "m.js"⟩, some ⟨1, "/wd"⟩, .WINGRR_ENGINE_JAVASCRIPT⟩

/-- A `NODE_PATH` value of length 4096, which overflows the 4096-byte save
buffer in `wingrr_exec`. -/
def longV : String := String.mk (List.replicate 4096 (Char.ofNat 97))

/-- Spec-side routing table for claim C1 (written from the spec's words, to
be compared with `wingrr_exec`): the status each engine type's unique
adapter/runtime path returns — `node_main` on the constructed argv with
`NODE_PATH` set to the workdir for JavaScript/TypeScript, and the matching
adapter's `execute(program)` for the six external engines. -/
def specRoutedStatus (E : Engines) (t : wingrr_engine_type_t)
    (program workdir : String) : Int :=
  match t with
  | .WINGRR_ENGINE_JAVASCRIPT =>
      E.node_main workdir (buildArgv .WINGRR_ENGINE_JAVASCRIPT program)
  | .WINGRR_ENGINE_TYPESCRIPT =>
      E.node_main workdir (buildArgv .WINGRR_ENGINE_TYPESCRIPT program)
  | .WINGRR_ENGINE_PYTHON => E.python_execute workdir program
  | .WINGRR_ENGINE_RUBY => E.ruby_execute workdir program
  | .WINGRR_ENGINE_LUA => E.lua_execute workdir program
  | .WINGRR_ENGINE_JAVA => E.java_execute workdir program
  | .WINGRR_ENGINE_GO => E.go_execute workdir program
  | .WINGRR_ENGINE_CSHARP => E.csharp_execute workdir program

/-- Spec-side description of the runtime-root fallback chain as the code
actually implements it (claim C5 amended): a set, non-empty value that fits
the 4096-byte buffer is returned as-is; an absent variable or an overflowing
value falls back to the current working directory, with `"."` when that read
reports `UV_ENOBUFS` and the empty string `""` (the untouched zeroed buffer)
when it fails with any other code; a set but empty value yields `"."`
directly, without consulting the current working directory. -/
def specRuntimeRoot (envRead : EnvReadResult) (cwd : CwdResult) : String :=
  match envRead with
  | .absent =>
      match cwd with
      | .ok c => c
      | .enobufs => "."
      | .err => ""
  | .value v =>
      if v.length = 0 then "."
      else if v.length < 4096 then v
      else
        match cwd with
        | .ok c => c
        | .enobufs => "."
        | .err => ""

/-- One public-API operation on a live context, for stating invariants over
arbitrary call sequences. -/
inductive WingrrOp
  | setProgramOp (p : Option CStr)
  | setWorkdirOp (w : Option CStr)
  | execOp (E : Engines) (g : String) (env : NodeEnv)

/-- Apply one operation to a context.  An aborting `wingrr_exec` (`none`)
kills the process, so the context trivially keeps its state. -/
def applyOp (c : wingrr_context_t) : WingrrOp → wingrr_context_t
  | .setProgramOp p => wingrr_set_program c p
  | .setWorkdirOp w => wingrr_set_workdir c w
  | .execOp E g env =>
      match wingrr_exec E g env c with
      | some out => out.ctx
      | none => c

/-- Apply a sequence of operations to a context, left to right. -/
def applyOps (c : wingrr_context_t) (ops : List WingrrOp) : wingrr_context_t :=
  ops.foldl applyOp c

/-- A concrete configured context used to instantiate claim C6: program
pointer at address 0 with text `"p"`, workdir pointer at address 1 with
text `"w"`. -/
def c6ctx : wingrr_context_t :=
  ⟨some ⟨0, "p"⟩, some ⟨1, "w"⟩, .WINGRR_ENGINE_LUA⟩

theorem longV_length : longV.length = 4096 := by
  rw [longV, String.length_mk, List.length_replicate]

/-- Helper: whatever the guard does, after `wingrr_set_program` the program
field holds the argument and the other fields are unchanged. -/
theorem set_program_shape (c : wingrr_context_t) (p : Option CStr) :
    wingrr_set_program c p = ⟨p, c.workdir, c.type⟩ := by
  rcases c with ⟨cp, cw, ct⟩
  by_cases hg : cp = p
  · subst hg; simp [wingrr_set_program]
  · simp [wingrr_set_program, hg]

/-- Helper: whatever the guard does, after `wingrr_set_workdir` the workdir
field holds the argument and the other fields are unchanged. -/
theorem set_workdir_shape (c : wingrr_context_t) (w : Option CStr) :
    wingrr_set_workdir c w = ⟨c.program, w, c.type⟩ := by
  rcases c with ⟨cp, cw, ct⟩
  by_cases hg : cw = w
  · subst hg; simp [wingrr_set_workdir]
  · simp [wingrr_set_workdir, hg]

/-- Helper: configuring program then workdir yields the fully determined
context, independent of prior program/workdir values. -/
theorem set_set_shape (c : wingrr_context_t) (p w : Option CStr) :
    wingrr_set_workdir (wingrr_set_program c p) w = ⟨p, w, c.type⟩ := by
  rw [set_program_shape, set_workdir_shape]

/-- Helper: `wingrr_exec` only reads the context; the outcome carries the
context unchanged. -/
theorem wingrr_exec_ctx_eq (E : Engines) (g : String) (env : NodeEnv)
    (ctx : wingrr_context_t) (out : ExecOutcome)
    (h : wingrr_exec E g env ctx = some out) : out.ctx = ctx := by
  rcases ctx with ⟨p, w, t⟩
  cases p with
  | none => simp [wingrr_exec] at h
  | some pv =>
    cases w with
    | none => simp [wingrr_exec] at h
    | some wv =>
      cases t <;> simp [wingrr_exec] at h <;> rw [← h]

/-- Helper: every single operation preserves the engine type. -/
theorem applyOp_type (c : wingrr_context_t) (op : WingrrOp) :
    (applyOp c op).type = c.type := by
  cases op with
  | setProgramOp p => rw [applyOp, set_program_shape]
  | setWorkdirOp w => rw [applyOp, set_workdir_shape]
  | execOp E g env =>
      rw [applyOp]
      cases h : wingrr_exec E g env c with
      | none => rfl
      | some out => simp [wingrr_exec_ctx_eq E g env c out h]

/-- Helper: every operation sequence preserves the engine type. -/
theorem applyOps_type (ops : List WingrrOp) :
    ∀ c : wingrr_context_t, (applyOps c ops).type = c.type := by
  induction ops with
  | nil => intro c; rfl
  | cons op rest ih =>
      intro c
      rw [applyOps, List.foldl_cons, ← applyOps, ih, applyOp_type]

/-- Claim C9: a freshly created context has both program and workdir equal to
the null pointer (the struct is value-initialised), so `wingrr_exec` on it
always takes the fatal precondition path; there is no default program or
workdir. -/
theorem wingrr_prep_unset (t : wingrr_engine_type_t) (E : Engines)
    (g : String) (env : NodeEnv) :
    (wingrr_prep t).program = none ∧ (wingrr_prep t).workdir = none ∧
    wingrr_exec E g env (wingrr_prep t) = none :=
  ⟨rfl, rfl, rfl⟩

/-- Claim C3: `wingrr_exec` aborts (the fatal contract path) exactly when
program or workdir is unset; it never returns any status code, success or
error, in that case, and when both are set the assertion branch is
unreachable (execution always produces a status). -/
theorem wingrr_exec_requires_config (E : Engines) (g : String) (env : NodeEnv)
    (ctx : wingrr_context_t) :
    wingrr_exec E g env ctx = none ↔
      (ctx.program = none ∨ ctx.workdir = none) := by
  rcases ctx with ⟨p, w, t⟩
  cases p <;> cases w <;> cases t <;> simp [wingrr_exec]

/-- Claim C8: the engine type is fixed at creation: any sequence of
`setProgram`, `setWorkdir` and `execute` operations on a context created
with engine type `t` leaves the engine type equal to `t`. -/
theorem engine_type_immutable (t : wingrr_engine_type_t)
    (ops : List WingrrOp) : (applyOps (wingrr_prep t) ops).type = t := by
  rw [applyOps_type]; rfl

/-- Claim C4: for TypeScript with program `"main.ts"` the constructed runtime
argv is, in order, the fixed flag set headed by the `"wingrr"` placeholder,
then the pair `"--require" "ts-node/register/transpile-only"`, then
`"main.ts"`; for JavaScript the vector is identical except that the
TypeScript-specific pair is absent. -/
theorem buildArgv_ts_js :
    buildArgv .WINGRR_ENGINE_TYPESCRIPT "main.ts" =
      ["wingrr",
       "--experimental-modules",
       "--experimental-wasi-unstable-preview1",
       "--no-global-search-paths",
       "--no-experimental-fetch",
       "--no-deprecation",
       "--no-warnings",
       "--no-addons",
       "--require",
       "ts-node/register/transpile-only",
       "main.ts"] ∧
    buildArgv .WINGRR_ENGINE_JAVASCRIPT "main.ts" =
      ["wingrr",
       "--experimental-modules",
       "--experimental-wasi-unstable-preview1",
       "--no-global-search-paths",
       "--no-experimental-fetch",
       "--no-deprecation",
       "--no-warnings",
       "--no-addons",
       "main.ts"] :=
  ⟨rfl, rfl⟩

/-- Claim C1: for every engine type, executing a context with non-empty
program and workdir routes to exactly the matching adapter/runtime path and
returns that path's status unmodified; in particular for Python with program
`"hello.py"` and workdir `"/tmp/scripts"` the returned code is exactly the
Python adapter's `execute("hello.py")` and the workdir handed to the adapter
constructor is exactly `"/tmp/scripts"`. -/
theorem wingrr_exec_dispatch (E : Engines) (g : String) (env : NodeEnv)
    (p w : CStr) (t : wingrr_engine_type_t) (a b : Nat)
    (hp : p.content ≠ "") (hw : w.content ≠ "") :
    execRet (wingrr_exec E g env ⟨some p, some w, t⟩) =
      some (specRoutedStatus E t p.content w.content) ∧
    wingrr_exec E g env
        ⟨some ⟨a, "hello.py"⟩, some ⟨b, "/tmp/scripts"⟩,
         .WINGRR_ENGINE_PYTHON⟩ =
      some ⟨E.python_execute "/tmp/scripts" "hello.py", env,
            ⟨some ⟨a, "hello.py"⟩, some ⟨b, "/tmp/scripts"⟩,
             .WINGRR_ENGINE_PYTHON⟩⟩ := by
  constructor
  · cases t <;> simp [wingrr_exec, execRet, specRoutedStatus]
  · simp [wingrr_exec]

/-- Witness for claim C1 at a concrete Python context. -/
theorem wingrr_exec_dispatch_witness :
    execRet (wingrr_exec trivEngines "G" ⟨none⟩
        ⟨some ⟨0, "hello.py"⟩, some ⟨1, "/tmp/scripts"⟩,
         .WINGRR_ENGINE_PYTHON⟩) =
      some (specRoutedStatus trivEngines .WINGRR_ENGINE_PYTHON
        "hello.py" "/tmp/scripts") :=
  (wingrr_exec_dispatch trivEngines "G" ⟨none⟩ ⟨0, "hello.py"⟩
    ⟨1, "/tmp/scripts"⟩ .WINGRR_ENGINE_PYTHON 0 1
    (by decide) (by decide)).1

/-- Claim C6: repeated identical sets are equivalent to a single set, and a
re-set of a field to its currently stored pointer is the guarded early
return, leaving the context untouched; symmetrically for both setters. -/
theorem set_fields_idempotent (ctx : wingrr_context_t) (v w : Option CStr) :
    wingrr_set_program (wingrr_set_program ctx v) v =
      wingrr_set_program ctx v ∧
    wingrr_set_workdir (wingrr_set_workdir ctx w) w =
      wingrr_set_workdir ctx w ∧
    (ctx.program = v → wingrr_set_program ctx v = ctx) ∧
    (ctx.workdir = w → wingrr_set_workdir ctx w = ctx) := by
  refine ⟨?_, ?_, ?_, ?_⟩
  · simp [set_program_shape]
  · simp [set_workdir_shape]
  · intro h; simp [wingrr_set_program, h]
  · intro h; simp [wingrr_set_workdir, h]

/-- Witness for claim C6 at a concrete configured context, with both guard
hypotheses discharged. -/
theorem set_fields_idempotent_witness :
    wingrr_set_program (wingrr_set_program c6ctx (some ⟨0, "p"⟩))
        (some ⟨0, "p"⟩) =
      wingrr_set_program c6ctx (some ⟨0, "p"⟩) ∧
    wingrr_set_program c6ctx (some ⟨0, "p"⟩) = c6ctx ∧
    wingrr_set_workdir c6ctx (some ⟨1, "w"⟩) = c6ctx :=
  ⟨(set_fields_idempotent c6ctx (some ⟨0, "p"⟩) (some ⟨1, "w"⟩)).1,
   (set_fields_idempotent c6ctx (some ⟨0, "p"⟩) (some ⟨1, "w"⟩)).2.2.1 rfl,
   (set_fields_idempotent c6ctx (some ⟨0, "p"⟩) (some ⟨1, "w"⟩)).2.2.2 rfl⟩

/-- Claim C7: execution does not consume or corrupt the context — the
context after `wingrr_exec` equals the context before, and reconfiguring it
with a new program and workdir and re-executing behaves exactly like
executing a freshly created context of the same engine type configured with
those values. -/
theorem wingrr_exec_preserves_ctx (E : Engines) (g : String) (env : NodeEnv)
    (ctx : wingrr_context_t) (out : ExecOutcome) (p w : Option CStr)
    (E2 : Engines) (g2 : String) (env2 : NodeEnv)
    (h : wingrr_exec E g env ctx = some out) :
    out.ctx = ctx ∧
    wingrr_exec E2 g2 env2
        (wingrr_set_workdir (wingrr_set_program out.ctx p) w) =
      wingrr_exec E2 g2 env2
        (wingrr_set_workdir (wingrr_set_program (wingrr_prep ctx.type) p) w) := by
  have hctx : out.ctx = ctx := wingrr_exec_ctx_eq E g env ctx out h
  refine ⟨hctx, ?_⟩
  rw [set_set_shape, set_set_shape, hctx]
  rfl

/-- Witness for claim C7 at a concrete Python context. -/
theorem wingrr_exec_preserves_ctx_witness :
    (⟨0, ⟨none⟩,
      ⟨some ⟨0, "hello.py"⟩, some ⟨1, "/tmp/scripts"⟩,
       .WINGRR_ENGINE_PYTHON⟩⟩ : ExecOutcome).ctx =
      ⟨some ⟨0, "hello.py"⟩, some ⟨1, "/tmp/scripts"⟩,
       .WINGRR_ENGINE_PYTHON⟩ ∧
    wingrr_exec trivEngines "G" ⟨none⟩
        (wingrr_set_workdir
          (wingrr_set_program
            (⟨0, ⟨none⟩,
              ⟨some ⟨0, "hello.py"⟩, some ⟨1, "/tmp/scripts"⟩,
               .WINGRR_ENGINE_PYTHON⟩⟩ : ExecOutcome).ctx
            (some ⟨2, "other.py"⟩))
          (some ⟨3, "/elsewhere"⟩)) =
      wingrr_exec trivEngines "G" ⟨none⟩
        (wingrr_set_workdir
          (wingrr_set_program
            (wingrr_prep
              (⟨some ⟨0, "hello.py"⟩, some ⟨1, "/tmp/scripts"⟩,
                .WINGRR_ENGINE_PYTHON⟩ : wingrr_context_t).type)
            (some ⟨2, "other.py"⟩))
          (some ⟨3, "/elsewhere"⟩)) :=
  wingrr_exec_preserves_ctx trivEngines "G" ⟨none⟩
    ⟨some ⟨0, "hello.py"⟩, some ⟨1, "/tmp/scripts"⟩, .WINGRR_ENGINE_PYTHON⟩
    ⟨0, ⟨none⟩,
     ⟨some ⟨0, "hello.py"⟩, some ⟨1, "/tmp/scripts"⟩,
      .WINGRR_ENGINE_PYTHON⟩⟩
    (some ⟨2, "other.py"⟩) (some ⟨3, "/elsewhere"⟩)
    trivEngines "G" ⟨none⟩ (by decide)

/-- Claim C10: on the JavaScript/TypeScript path the restore step
unconditionally re-sets `NODE_PATH` from the save buffer, so when the
variable was unset before `wingrr_exec` it is nonetheless set afterwards
(to the indeterminate contents `g` of the uninitialised buffer); execution
never returns the variable to the unset state. -/
theorem wingrr_exec_sets_node_path (E : Engines) (g : String)
    (ctx : wingrr_context_t) (out : ExecOutcome)
    (ht : ctx.type = .WINGRR_ENGINE_JAVASCRIPT ∨
          ctx.type = .WINGRR_ENGINE_TYPESCRIPT)
    (h : wingrr_exec E g ⟨none⟩ ctx = some out) :
    out.env.node_path = some g ∧ out.env.node_path ≠ none := by
  rcases ctx with ⟨p, w, t⟩
  cases p with
  | none => simp [wingrr_exec] at h
  | some pv =>
    cases w with
    | none => simp [wingrr_exec] at h
    | some wv =>
      simp only [wingrr_exec] at h
      rw [if_pos ht] at h
      injection h with h2
      rw [← h2]
      exact ⟨rfl, by simp⟩

/-- Witness for claim C10 at a concrete JavaScript context with `NODE_PATH`
initially unset. -/
theorem wingrr_exec_sets_node_path_witness :
    (⟨0, ⟨some "G"⟩, jsCtx⟩ : ExecOutcome).env.node_path = some "G" ∧
    (⟨0, ⟨some "G"⟩, jsCtx⟩ : ExecOutcome).env.node_path ≠ none :=
  wingrr_exec_sets_node_path trivEngines "G" jsCtx ⟨0, ⟨some "G"⟩, jsCtx⟩
    (Or.inl rfl) (by decide)

/-- Counterexample to claim C2 as stated: with `NODE_PATH` pre-set to a value
of length 4096 (overflowing the 4096-byte save buffer), a JavaScript execute
returns with `NODE_PATH` equal to the uninitialised buffer contents `"B"`,
not the original value. -/
theorem wingrr_exec_long_node_path_clobbered :
    wingrr_exec trivEngines "B" ⟨some longV⟩ jsCtx =
      some ⟨0, ⟨some "B"⟩, jsCtx⟩ ∧
    ("B" : String) ≠ longV := by
  constructor
  · simp [wingrr_exec, jsCtx, readEnvBuf, longV_length, trivEngines]
  · intro hcontra
    have hlen : ("B" : String).length = 4096 := by rw [hcontra, longV_length]
    exact absurd hlen (by decide)

/-- Claim C2 (amended): for a JavaScript or TypeScript execute, if
`NODE_PATH` is pre-set to a value `V` short enough to fit the 4096-byte save
buffer (`V.length < 4096`), then after `wingrr_exec` returns the variable
again equals `V`, regardless of the runtime's status: the dispatcher saves
the value, overwrites it with the workdir, runs the runtime synchronously,
then restores the saved value. -/
theorem wingrr_exec_restores_short_node_path (E : Engines) (g V : String)
    (p w : CStr) (t : wingrr_engine_type_t)
    (ht : t = .WINGRR_ENGINE_JAVASCRIPT ∨ t = .WINGRR_ENGINE_TYPESCRIPT)
    (hV : V.length < 4096) :
    wingrr_exec E g ⟨some V⟩ ⟨some p, some w, t⟩ =
      some ⟨E.node_main w.content (buildArgv t p.content), ⟨some V⟩,
            ⟨some p, some w, t⟩⟩ := by
  rcases ht with h | h <;> subst h <;> simp [wingrr_exec, readEnvBuf, hV]

/-- Witness for the amended claim C2 at a concrete JavaScript context with
`NODE_PATH` pre-set to the short value `"/prior"`. -/
theorem wingrr_exec_restores_short_node_path_witness :
    wingrr_exec trivEngines "G" ⟨some "/prior"⟩
        ⟨some ⟨0, "m.js"⟩, some ⟨1, "/wd"⟩, .WINGRR_ENGINE_JAVASCRIPT⟩ =
      some ⟨trivEngines.node_main "/wd"
              (buildArgv .WINGRR_ENGINE_JAVASCRIPT "m.js"),
            ⟨some "/prior"⟩,
            ⟨some ⟨0, "m.js"⟩, some ⟨1, "/wd"⟩,
             .WINGRR_ENGINE_JAVASCRIPT⟩⟩ :=
  wingrr_exec_restores_short_node_path trivEngines "G" "/prior"
    ⟨0, "m.js"⟩ ⟨1, "/wd"⟩ .WINGRR_ENGINE_JAVASCRIPT (Or.inl rfl) (by decide)

/-- Counterexample to claim C5 as stated: with `WINGRR_ROOT` set but empty
and the current working directory readable as `"/home/user"`, the resolver
returns `"."` directly instead of falling back to the current working
directory. -/
theorem get_runtime_path_empty_env_skips_cwd :
    _get_runtime_path (.value "") (.ok "/home/user") = "." ∧
    _get_runtime_path (.value "") (.ok "/home/user") ≠ "/home/user" := by
  constructor <;> decide

/-- Claim C5 (amended): the runtime-root resolution returns a set, non-empty
`WINGRR_ROOT` value that fits the 4096-byte buffer as-is; falls back to the
current working directory when the variable is absent or its value overflows
the buffer — with `"."` when that read fails with `UV_ENOBUFS`, and the
empty string `""` (the untouched zeroed buffer) when it fails with any other
code; and returns `"."` directly (without consulting the current working
directory) when the variable is set but empty.  No branch surfaces an error
to the caller: the chain always produces a string, though possibly the empty
one. -/
theorem get_runtime_path_spec (envRead : EnvReadResult) (cwd : CwdResult) :
    _get_runtime_path envRead cwd = specRuntimeRoot envRead cwd := by
  cases envRead with
  | absent => cases cwd <;> rfl
  | value v =>
    by_cases h0 : v.length = 0
    · have hv : v = "" := by
        cases v with
        | mk data =>
          rw [String.length_mk] at h0
          rw [List.length_eq_zero] at h0
          rw [h0]
      subst hv
      simp [_get_runtime_path, specRuntimeRoot]
    · by_cases h1 : v.length < 4096
      · have hv : v ≠ "" := by
          intro hcontra; subst hcontra; simp at h0
        simp [_get_runtime_path, specRuntimeRoot, h0, h1, hv]
      · simp [_get_runtime_path, specRuntimeRoot, h0, h1]
        cases cwd <;> simp
